import Mathlib

/-!
# Verification of the AURA-Journal authentication core

Shallow embedding of `backend/services/auth_service` (auth_handler.py,
repositories/session_repository.py, repositories/user_repository.py,
repositories/base_repository.py, models.py) as pure Lean functions.

Modelling conventions:
* Time is `Int` epoch seconds (`datetime.now(timezone.utc)` becomes a `now`
  parameter, constant within one operation).
* UUIDs (`uuid.uuid4()`) are drawn from a monotone counter `nextId` carried in
  the world state; distinct draws are distinct, matching UUID freshness.
* `jwt.encode` under the service key is modelled by the constructor
  `Token.signed`; any string that fails `jwt.decode` (malformed or signed with
  another key) is `Token.invalid`, on which decoding raises `JWTError`.
* `hashlib.sha256(...).hexdigest()` is modelled as an injective tag `Sha256`
  of the preimage token: the standard collision-freeness idealization.
* bcrypt hashing is modelled the same way (`verify` accepts exactly the
  hashed password); salting/nondeterminism is irrelevant to the claims here.
* Python `ValueError` messages become `Except String` errors carrying the
  exact message raised by the source.
* Every repository method that calls `self.db.commit()` appends a snapshot of
  the post-commit world to a `commits` trace, so that intermediate committed
  states are observable (a raised exception does not roll committed work
  back, so operations return their `DB` even on the error path).
-/

deriving instance DecidableEq for Except

namespace AuraAuth

/-- JWT configuration read from the environment in `AuthHandler.__init__`:
`ACCESS_TOKEN_EXPIRE_MINUTES` (default 30) and `REFRESH_TOKEN_EXPIRE_DAYS`
(default 7). -/
structure Config where
  access_token_expire_minutes : Int
  refresh_token_expire_days : Int
deriving Repr, DecidableEq

/-- The hardcoded defaults of `AuthHandler.__init__`. -/
def defaultConfig : Config :=
  { access_token_expire_minutes := 30, refresh_token_expire_days := 7 }

/-- The claim set of a JWT minted by this service (models.TokenPayload). -/
structure TokenPayload where
  user_id : Nat
  email : String
  session_id : Nat
  exp : Int
  iat : Int
  jti : Nat
  token_type : String
deriving Repr, DecidableEq

/-- A JWT string: either a token signed under the service key (in which case
`jwt.decode` recovers the payload) or anything else (malformed, expired
signature envelope, wrong key), on which `jwt.decode` raises `JWTError`. -/
inductive Token where
  | signed (payload : TokenPayload)
  | invalid (raw : String)
deriving Repr, DecidableEq

/-- Embeds `jose.jwt.decode(token, secret_key, algorithms=[...])`: succeeds exactly
on tokens signed under the service key. -/
def jwtDecode : Token → Except String TokenPayload
  | .signed p => .ok p
  | .invalid _ => .error "JWTError"

/-- Embeds `AuthHandler.verify_token`: decode, check the type discriminator, check
expiry; every failure is a Python `ValueError`. -/
def verify_token (now : Int) (token : Token) (expected_type : String) :
    Except String TokenPayload :=
  match jwtDecode token with
  | .error e => .error ("Invalid token: " ++ e)
  | .ok payload =>
    if payload.token_type ≠ expected_type then
      .error ("Invalid token type. Expected " ++ expected_type)
    else if now > payload.exp then
      .error "Token has expired"
    else
      .ok payload

/-- Embeds `AuthHandler.create_access_token`: expiry is `now + minutes`; `jti` is the
`uuid.uuid4()` drawn inside the function, threaded in by the caller. -/
def create_access_token (cfg : Config) (now : Int) (user_id : Nat)
    (email : String) (session_id : Nat) (jti : Nat) : Token :=
  .signed { user_id := user_id, email := email, session_id := session_id,
            exp := now + 60 * cfg.access_token_expire_minutes, iat := now,
            jti := jti, token_type := "access" }

/-- Embeds `AuthHandler.create_refresh_token`: expiry is `now + days`. -/
def create_refresh_token (cfg : Config) (now : Int) (user_id : Nat)
    (email : String) (session_id : Nat) (jti : Nat) : Token :=
  .signed { user_id := user_id, email := email, session_id := session_id,
            exp := now + 86400 * cfg.refresh_token_expire_days, iat := now,
            jti := jti, token_type := "refresh" }

/-- A SHA-256 hex digest, idealized as an injective tag of its preimage. -/
structure Sha256 where
  preimage : Token
deriving Repr, DecidableEq

/-- Embeds `AuthHandler.hash_refresh_token`. -/
def hash_refresh_token (t : Token) : Sha256 := ⟨t⟩

/-- A bcrypt digest, idealized as an injective tag of the hashed secret. -/
structure BcryptHash where
  secret : String
deriving Repr, DecidableEq

/-- Embeds `AuthHandler.hash_password`. -/
def hash_password (password : String) : BcryptHash := ⟨password⟩

/-- Embeds `AuthHandler.verify_password`: accepts exactly the hashed secret. -/
def verify_password (plain : String) (hashed : BcryptHash) : Bool :=
  plain == hashed.secret

/-- Row of the `users` table (database.User). -/
structure User where
  user_id : Nat
  email : String
  password_hash : BcryptHash
  first_name : Option String := none
  last_name : Option String := none
  is_active : Bool := true
  is_verified : Bool := false
  created_at : Int := 0
  last_login : Option Int := none
deriving Repr, DecidableEq

/-- Row of the `user_sessions` table (database.UserSession). -/
structure UserSession where
  session_id : Nat
  user_id : Nat
  refresh_token_hash : Sha256
  expires_at : Int
  created_at : Int := 0
  is_active : Bool := true
deriving Repr, DecidableEq

/-- The persistent state: both tables plus the fresh-UUID counter. -/
structure World where
  users : List User
  sessions : List UserSession
  nextId : Nat
deriving Repr, DecidableEq

/-- A database handle: current state plus the trace of committed snapshots
(one entry per `self.db.commit()` call, oldest first). -/
structure DB where
  state : World
  commits : List World
deriving Repr, DecidableEq

/-- Embeds `self.db.commit()`: the current state becomes durable. -/
def DB.commit (db : DB) : DB :=
  { db with commits := db.commits ++ [db.state] }

/-- Embeds `uuid.uuid4()` (also the column defaults `default=uuid.uuid4`): draw a
fresh identifier from the counter. -/
def freshId (w : World) : Nat × World :=
  (w.nextId, { w with nextId := w.nextId + 1 })

/-- Embeds `UserRepository.get_by_email`: exact equality filter `User.email == email`. -/
def get_by_email (w : World) (email : String) : Option User :=
  w.users.find? (fun u => u.email == email)

/-- Embeds `UserRepository.email_exists`: same exact-equality filter. -/
def email_exists (w : World) (email : String) : Bool :=
  (get_by_email w email).isSome

/-- Embeds `BaseRepository.get_by_id` specialized to users. -/
def user_get_by_id (w : World) (uid : Nat) : Option User :=
  w.users.find? (fun u => u.user_id == uid)

/-- Embeds `BaseRepository.get_by_id` specialized to sessions
(`SessionRepository._get_id_field` is `session_id`). -/
def session_get_by_id (w : World) (sid : Nat) : Option UserSession :=
  w.sessions.find? (fun s => s.session_id == sid)

/-- Embeds `SessionRepository.get_active_session`: id filter conjoined with
`is_active == True`. -/
def get_active_session (w : World) (sid : Nat) : Option UserSession :=
  w.sessions.find? (fun s => s.session_id == sid && s.is_active)

/-- Embeds `UserRepository.create_user` via `BaseRepository.create`: the insert hits
the unique index on `email`, raising `IntegrityError` (and rolling back the
insert) when an exactly-equal email is present; otherwise the row is inserted
with column defaults and committed. -/
structure UserCreate where
  email : String
  password : String
  first_name : Option String := none
  last_name : Option String := none
deriving Repr, DecidableEq

def user_repo_create_user (db : DB) (now : Int) (user_data : UserCreate)
    (password_hash : BcryptHash) : Except String User × DB :=
  if db.state.users.any (fun u => u.email == user_data.email) then
    (.error "IntegrityError", db)
  else
    let (uid, w) := freshId db.state
    let user : User :=
      { user_id := uid, email := user_data.email,
        password_hash := password_hash, first_name := user_data.first_name,
        last_name := user_data.last_name, is_active := true,
        is_verified := false, created_at := now, last_login := none }
    (.ok user, DB.commit { db with state := { w with users := w.users ++ [user] } })

/-- Embeds `SessionRepository.create_session` via `BaseRepository.create`: insert an
active session with a fresh id and commit. -/
def create_session (db : DB) (now : Int) (uid : Nat)
    (refresh_token_hash : Sha256) (expires_at : Int) : UserSession × DB :=
  let (sid, w) := freshId db.state
  let s : UserSession :=
    { session_id := sid, user_id := uid,
      refresh_token_hash := refresh_token_hash, expires_at := expires_at,
      created_at := now, is_active := true }
  (s, DB.commit { db with state := { w with sessions := w.sessions ++ [s] } })

/-- Embeds `SessionRepository.update_refresh_token` via `BaseRepository.update`:
look the row up by id (active or not), overwrite `refresh_token_hash` and
`expires_at`, commit; `None` and no mutation when the id is unknown. -/
def update_refresh_token (db : DB) (sid : Nat) (refresh_token_hash : Sha256)
    (expires_at : Int) : Option UserSession × DB :=
  match session_get_by_id db.state sid with
  | none => (none, db)
  | some s =>
    let s' := { s with refresh_token_hash := refresh_token_hash,
                       expires_at := expires_at }
    let w := { db.state with
                 sessions := db.state.sessions.map
                   (fun t => if t.session_id == sid then s' else t) }
    (some s', DB.commit { db with state := w })

/-- Embeds `SessionRepository.invalidate_session`: look up by id (active or not);
`False` when not found, otherwise set `is_active = False`, commit, `True`. -/
def invalidate_session (db : DB) (sid : Nat) : Bool × DB :=
  match session_get_by_id db.state sid with
  | none => (false, db)
  | some s =>
    let s' := { s with is_active := false }
    let w := { db.state with
                 sessions := db.state.sessions.map
                   (fun t => if t.session_id == sid then s' else t) }
    (true, DB.commit { db with state := w })

/-- Embeds `UserRepository.update_last_login`: stamp `last_login` and commit;
silently `None` when the user id is unknown. -/
def update_last_login (db : DB) (now : Int) (uid : Nat) : DB :=
  match user_get_by_id db.state uid with
  | none => db
  | some u =>
    let u' := { u with last_login := some now }
    let w := { db.state with
                 users := db.state.users.map
                   (fun t => if t.user_id == uid then u' else t) }
    DB.commit { db with state := w }

/-- models.UserLogin. -/
structure UserLogin where
  email : String
  password : String
deriving Repr, DecidableEq

/-- models.TokenResponse. -/
structure TokenResponse where
  access_token : Token
  refresh_token : Token
  token_type : String := "bearer"
  expires_in : Int
deriving Repr, DecidableEq

/-- Embeds `AuthHandler.create_user` (register): duplicate check by
`email_exists`, then hash, then insert; an `IntegrityError` from the insert
is translated into the very same `ValueError` as the duplicate check. -/
def create_user (db : DB) (now : Int) (user_data : UserCreate) :
    Except String User × DB :=
  if email_exists db.state user_data.email then
    (.error "User with this email already exists", db)
  else
    match user_repo_create_user db now user_data (hash_password user_data.password) with
    | (.error _, db') => (.error "User with this email already exists", db')
    | (.ok u, db') => (.ok u, db')

/-- Embeds `AuthHandler.authenticate_user` (login): credential check, then the
two-phase session creation: mint tokens against a throwaway session id,
insert the session with the hash of that throwaway refresh token (commit),
re-mint both tokens against the real session id, rotate the stored hash
(second commit), stamp last login (third commit). -/
def authenticate_user (cfg : Config) (now : Int) (db : DB)
    (credentials : UserLogin) : Except String TokenResponse × DB :=
  match get_by_email db.state credentials.email with
  | none => (.error "Invalid credentials", db)
  | some user =>
    if !user.is_active then
      (.error "Invalid credentials", db)
    else if !verify_password credentials.password user.password_hash then
      (.error "Invalid credentials", db)
    else
      let expires_at := now + 86400 * cfg.refresh_token_expire_days
      let (temp_session_id, w1) := freshId db.state
      let (jtiA1, w2) := freshId w1
      let access1 := create_access_token cfg now user.user_id user.email temp_session_id jtiA1
      let (jtiR1, w3) := freshId w2
      let refresh1 := create_refresh_token cfg now user.user_id user.email temp_session_id jtiR1
      let refresh_token_hash := hash_refresh_token refresh1
      let (session, db1) :=
        create_session { db with state := w3 } now user.user_id refresh_token_hash expires_at
      let (jtiA2, w4) := freshId db1.state
      let access_token := create_access_token cfg now user.user_id user.email session.session_id jtiA2
      let (jtiR2, w5) := freshId w4
      let refresh_token := create_refresh_token cfg now user.user_id user.email session.session_id jtiR2
      let (_, db2) :=
        update_refresh_token { db1 with state := w5 } session.session_id
          (hash_refresh_token refresh_token) expires_at
      let db3 := update_last_login db2 now user.user_id
      let _ := access1
      (.ok { access_token := access_token, refresh_token := refresh_token,
             expires_in := 60 * cfg.access_token_expire_minutes }, db3)

/-- Embeds `AuthHandler.refresh_tokens`: verify the presented refresh token, look up
the active session it names, compare its hash to the stored one, check the
expiry of the session itself (invalidating on lapse), check the owning user, then
mint a fresh pair and rotate the stored hash/expiry. -/
def refresh_tokens (cfg : Config) (now : Int) (db : DB)
    (refresh_token : Token) : Except String TokenResponse × DB :=
  match verify_token now refresh_token "refresh" with
  | .error _ => (.error "Invalid refresh token", db)
  | .ok payload =>
    match get_active_session db.state payload.session_id with
    | none => (.error "Invalid session", db)
    | some session =>
      if session.refresh_token_hash ≠ hash_refresh_token refresh_token then
        (.error "Invalid refresh token", db)
      else if now > session.expires_at then
        (.error "Session expired", (invalidate_session db session.session_id).2)
      else
        match user_get_by_id db.state session.user_id with
        | none => (.error "User not found or inactive", db)
        | some user =>
          if !user.is_active then
            (.error "User not found or inactive", db)
          else
            let (jtiA, w1) := freshId db.state
            let access_token := create_access_token cfg now user.user_id user.email session.session_id jtiA
            let (jtiR, w2) := freshId w1
            let new_refresh_token := create_refresh_token cfg now user.user_id user.email session.session_id jtiR
            let new_expires_at := now + 86400 * cfg.refresh_token_expire_days
            let (_, db1) :=
              update_refresh_token { db with state := w2 } session.session_id
                (hash_refresh_token new_refresh_token) new_expires_at
            (.ok { access_token := access_token,
                   refresh_token := new_refresh_token,
                   expires_in := 60 * cfg.access_token_expire_minutes }, db1)

/-- Embeds `AuthHandler.logout_user`: verify the refresh token and invalidate the
session it names; the whole body sits in a `try` whose
`except ValueError: pass` swallows every authentication failure, so the
caller always gets a normal return. -/
def logout_user (now : Int) (db : DB) (refresh_token : Token) :
    Except String Unit × DB :=
  match verify_token now refresh_token "refresh" with
  | .error _ => (.ok (), db)
  | .ok payload => (.ok (), (invalidate_session db payload.session_id).2)

/-- Database well-formedness: primary keys are unique (enforced by the
primary-key constraints of the storage layer). -/
def World.wf (w : World) : Prop :=
  w.sessions.Pairwise (fun a b => a.session_id ≠ b.session_id) ∧
  w.users.Pairwise (fun a b => a.user_id ≠ b.user_id)

instance (w : World) : Decidable w.wf := by
  unfold World.wf; infer_instance

/-- Freshness of the UUID counter relative to a token: the token (if signed)
was minted with a `jti` drawn before the current value of the counter. -/
def Token.jtiLt : Token → Nat → Bool
  | .signed p, n => p.jti < n
  | .invalid _, _ => true

/-- Every stored refresh-token hash comes from a token minted in the past:
its `jti` precedes the fresh-UUID counter. Holds of every reachable state
because `jti` values are drawn from the counter. -/
def World.hashesFresh (w : World) : Prop :=
  ∀ s ∈ w.sessions, s.refresh_token_hash.preimage.jtiLt w.nextId = true

instance (w : World) : Decidable w.hashesFresh := by
  unfold World.hashesFresh; infer_instance

theorem Token.jtiLt_mono {t : Token} {n m : Nat} (h : t.jtiLt n = true)
    (hnm : n ≤ m) : t.jtiLt m = true := by
  cases t with
  | signed p => simp only [Token.jtiLt, decide_eq_true_eq] at h ⊢; omega
  | invalid r => rfl

/-! ### Generic lemmas about `find?` over an update-in-place `map`

`BaseRepository.update` mutates the row found by id and commits; in the model
this is `List.map` with an `if` on the id. These lemmas relate `find?`
before and after such a map. -/

theorem find?_pred {α : Type} (p : α → Bool) {l : List α} {a : α}
    (h : l.find? p = some a) : p a = true :=
  List.find?_some h

theorem find?_mem {α : Type} (p : α → Bool) {l : List α} {a : α}
    (h : l.find? p = some a) : a ∈ l :=
  List.mem_of_find?_eq_some h

theorem find?_replace_some {α : Type} (p q : α → Bool) (s' : α)
    (himp : ∀ t, q t = true → p t = true) (hq : q s' = true)
    {l : List α} {s : α} (h : l.find? p = some s) :
    (l.map fun t => if p t then s' else t).find? q = some s' := by
  induction l with
  | nil => simp at h
  | cons t l ih =>
    by_cases hp : p t
    · simp only [List.map_cons, if_pos hp]
      exact List.find?_cons_of_pos _ hq
    · have hqt : ¬ q t := fun hqt => hp (himp t hqt)
      rw [List.find?_cons_of_neg _ hp] at h
      simp only [List.map_cons, if_neg hp]
      rw [List.find?_cons_of_neg _ hqt]
      exact ih h

theorem find?_replace_none {α : Type} (p q : α → Bool) (s' : α)
    (himp : ∀ t, q t = true → p t = true) (hq : q s' = false) (l : List α) :
    (l.map fun t => if p t then s' else t).find? q = none := by
  rw [List.find?_eq_none]
  intro x hx
  rw [List.mem_map] at hx
  obtain ⟨t, _, rfl⟩ := hx
  by_cases hp : p t
  · rw [if_pos hp]; simp [hq]
  · rw [if_neg hp]; intro hqt; exact hp (himp t hqt)

/-- Under unique session ids, the row returned by the active-filtered query
is also the row returned by the plain id query. -/
theorem find?_id_of_find?_active {l : List UserSession} {sid : Nat}
    {s : UserSession}
    (hnodup : l.Pairwise (fun a b => a.session_id ≠ b.session_id))
    (h : l.find? (fun t => t.session_id == sid && t.is_active) = some s) :
    l.find? (fun t => t.session_id == sid) = some s := by
  induction l with
  | nil => simp at h
  | cons t l ih =>
    rcases List.pairwise_cons.mp hnodup with ⟨hhead, htail⟩
    by_cases hp : (t.session_id == sid && t.is_active) = true
    · rw [List.find?_cons_of_pos (p := fun t => t.session_id == sid && t.is_active) l hp] at h
      injection h with h; subst h
      simp only [Bool.and_eq_true] at hp
      exact List.find?_cons_of_pos (p := fun t => t.session_id == sid) l hp.1
    · rw [List.find?_cons_of_neg (p := fun t => t.session_id == sid && t.is_active) l hp] at h
      by_cases hid : (t.session_id == sid) = true
      · exfalso
        have hs := List.find?_some h
        simp only [Bool.and_eq_true] at hs
        have hmem := List.mem_of_find?_eq_some h
        apply hhead s hmem
        rw [Nat.beq_eq_true_eq] at hid
        have hs1 := hs.1
        rw [Nat.beq_eq_true_eq] at hs1
        omega
      · rw [List.find?_cons_of_neg (p := fun t => t.session_id == sid) l hid]
        exact ih htail h

/-- Success shape of `verify_token` on a service-signed token. -/
theorem verify_token_ok_of (now : Int) (p : TokenPayload) (ty : String)
    (hty : p.token_type = ty) (hexp : ¬ now > p.exp) :
    verify_token now (.signed p) ty = .ok p := by
  have h1 : ¬ (p.token_type ≠ ty) := by simp [hty]
  simp only [verify_token, jwtDecode]
  rw [if_neg h1, if_neg hexp]

/-! ### C2: issue/verify round trip -/

/-- C2: for both token kinds, verifying a token immediately after issuing it
succeeds and returns the claims that were put in (session id, user id,
email, type discriminator), provided the configured TTLs are nonnegative
(the environment defaults are 30 minutes and 7 days). -/
theorem issue_verify_round_trip (cfg : Config) (now : Int) (a : Nat)
    (e : String) (s jti : Nat)
    (hacc : 0 ≤ cfg.access_token_expire_minutes)
    (href : 0 ≤ cfg.refresh_token_expire_days) :
    (∃ p, verify_token now (create_access_token cfg now a e s jti) "access" = .ok p ∧
      p.session_id = s ∧ p.user_id = a ∧ p.email = e ∧ p.token_type = "access") ∧
    (∃ p, verify_token now (create_refresh_token cfg now a e s jti) "refresh" = .ok p ∧
      p.session_id = s ∧ p.user_id = a ∧ p.email = e ∧ p.token_type = "refresh") := by
  constructor
  · refine ⟨{ user_id := a, email := e, session_id := s,
              exp := now + 60 * cfg.access_token_expire_minutes, iat := now,
              jti := jti, token_type := "access" }, ?_, rfl, rfl, rfl, rfl⟩
    refine verify_token_ok_of now _ "access" rfl ?_
    intro hcon
    simp only [gt_iff_lt] at hcon
    omega
  · refine ⟨{ user_id := a, email := e, session_id := s,
              exp := now + 86400 * cfg.refresh_token_expire_days, iat := now,
              jti := jti, token_type := "refresh" }, ?_, rfl, rfl, rfl, rfl⟩
    refine verify_token_ok_of now _ "refresh" rfl ?_
    intro hcon
    simp only [gt_iff_lt] at hcon
    omega

/-- Witness for C2 at the default configuration. -/
theorem issue_verify_round_trip_witness :
    (∃ p, verify_token 0 (create_access_token defaultConfig 0 1 "a@x.com" 2 3) "access" = .ok p ∧
      p.session_id = 2 ∧ p.user_id = 1 ∧ p.email = "a@x.com" ∧ p.token_type = "access") ∧
    (∃ p, verify_token 0 (create_refresh_token defaultConfig 0 1 "a@x.com" 2 3) "refresh" = .ok p ∧
      p.session_id = 2 ∧ p.user_id = 1 ∧ p.email = "a@x.com" ∧ p.token_type = "refresh") :=
  issue_verify_round_trip defaultConfig 0 1 "a@x.com" 2 3 (by decide) (by decide)

/-! ### C6: uniform login failure -/

/-- C6: the observable outcome of a failed login is the single error value
"Invalid credentials" (with the database untouched) both when the email does
not resolve to an active account and when the account exists and is active
but the password is wrong, so the failure output does not reveal which
sub-check failed. -/
theorem login_failure_uniform (cfg : Config) (now : Int) (db : DB)
    (credentials : UserLogin) :
    ((∀ u, get_by_email db.state credentials.email = some u → u.is_active = false) →
      authenticate_user cfg now db credentials = (.error "Invalid credentials", db)) ∧
    (∀ u, get_by_email db.state credentials.email = some u → u.is_active = true →
      verify_password credentials.password u.password_hash = false →
      authenticate_user cfg now db credentials = (.error "Invalid credentials", db)) := by
  constructor
  · intro h
    unfold authenticate_user
    cases hu : get_by_email db.state credentials.email with
    | none => rfl
    | some u => simp [h u hu]
  · intro u hu hact hpw
    unfold authenticate_user
    rw [hu]
    simp [hact, hpw]

/-- Witness for C6: a world with one active account; logging in with a wrong
password yields exactly the error that a nonexistent email yields. -/
theorem login_failure_uniform_witness :
    authenticate_user defaultConfig 0
      { state := { users := [{ user_id := 1, email := "a@x.com",
                               password_hash := hash_password "Abcdef1!" }],
                   sessions := [], nextId := 2 }, commits := [] }
      { email := "a@x.com", password := "wrong" }
      = (.error "Invalid credentials",
         { state := { users := [{ user_id := 1, email := "a@x.com",
                                  password_hash := hash_password "Abcdef1!" }],
                      sessions := [], nextId := 2 }, commits := [] }) ∧
    authenticate_user defaultConfig 0
      { state := { users := [{ user_id := 1, email := "a@x.com",
                               password_hash := hash_password "Abcdef1!" }],
                   sessions := [], nextId := 2 }, commits := [] }
      { email := "b@x.com", password := "Abcdef1!" }
      = (.error "Invalid credentials",
         { state := { users := [{ user_id := 1, email := "a@x.com",
                                  password_hash := hash_password "Abcdef1!" }],
                      sessions := [], nextId := 2 }, commits := [] }) :=
  ⟨(login_failure_uniform defaultConfig 0 _ _).2
      { user_id := 1, email := "a@x.com", password_hash := hash_password "Abcdef1!" }
      (by decide) (by decide) (by decide),
   (login_failure_uniform defaultConfig 0 _ _).1 (by decide)⟩

/-! ### Helper lemmas about `invalidate_session` and `update_refresh_token` -/

/-- A row found by id keeps satisfying the id filter. -/
theorem session_get_by_id_some_id {w : World} {sid : Nat} {s : UserSession}
    (h : session_get_by_id w sid = some s) : (s.session_id == sid) = true := by
  unfold session_get_by_id at h
  exact find?_pred (fun (t : UserSession) => t.session_id == sid) h

/-- The boolean result of `invalidate_session` on a row found by id. -/
theorem invalidate_session_fst_of_found {db : DB} {sid : Nat} {s : UserSession}
    (h : session_get_by_id db.state sid = some s) :
    (invalidate_session db sid).1 = true := by
  unfold invalidate_session
  rw [h]

/-- After invalidation, the row named by the id is the same row with
`is_active = False`. -/
theorem session_get_by_id_invalidate {db : DB} {sid : Nat} {s : UserSession}
    (h : session_get_by_id db.state sid = some s) :
    session_get_by_id (invalidate_session db sid).2.state sid
      = some { s with is_active := false } := by
  have hid := session_get_by_id_some_id h
  unfold invalidate_session
  rw [h]
  dsimp only [DB.commit]
  unfold session_get_by_id at h ⊢
  exact find?_replace_some (fun (t : UserSession) => t.session_id == sid)
    (fun t => t.session_id == sid) { s with is_active := false }
    (fun t ht => ht) hid h

/-- The returned row of `update_refresh_token` on a row found by id. -/
theorem update_refresh_token_fst_of_found {db : DB} {sid : Nat}
    {s : UserSession} (hsh : Sha256) (e : Int)
    (h : session_get_by_id db.state sid = some s) :
    (update_refresh_token db sid hsh e).1
      = some { s with refresh_token_hash := hsh, expires_at := e } := by
  unfold update_refresh_token
  rw [h]

/-- After a rotation, the row named by the id is the same row with the new
hash and expiry. -/
theorem session_get_by_id_update {db : DB} {sid : Nat} {s : UserSession}
    (hsh : Sha256) (e : Int)
    (h : session_get_by_id db.state sid = some s) :
    session_get_by_id (update_refresh_token db sid hsh e).2.state sid
      = some { s with refresh_token_hash := hsh, expires_at := e } := by
  have hid := session_get_by_id_some_id h
  unfold update_refresh_token
  rw [h]
  dsimp only [DB.commit]
  unfold session_get_by_id at h ⊢
  exact find?_replace_some (fun (t : UserSession) => t.session_id == sid)
    (fun t => t.session_id == sid)
    { s with refresh_token_hash := hsh, expires_at := e }
    (fun t ht => ht) hid h

/-- Lemma: `logout_user` returns normally on every input token. -/
theorem logout_user_fst (now : Int) (db : DB) (t : Token) :
    (logout_user now db t).1 = .ok () := by
  unfold logout_user
  cases h : verify_token now t "refresh" with
  | error e => rfl
  | ok p => rfl

/-! ### C3: invalidation is idempotent, but signals by id-existence -/

/-- C3 (amended): invalidating an existing active session sets its active
flag to false and returns true; a second invalidation of the same session is
not an error and returns true again (the session merely stays inactive);
false is returned only when the session id does not exist at all. -/
theorem invalidate_session_idempotent (db : DB) (sid : Nat) :
    (session_get_by_id db.state sid = none →
      invalidate_session db sid = (false, db)) ∧
    (∀ s, session_get_by_id db.state sid = some s →
      (invalidate_session db sid).1 = true ∧
      session_get_by_id (invalidate_session db sid).2.state sid
        = some { s with is_active := false } ∧
      (invalidate_session (invalidate_session db sid).2 sid).1 = true ∧
      session_get_by_id (invalidate_session (invalidate_session db sid).2 sid).2.state sid
        = some { s with is_active := false }) := by
  constructor
  · intro h
    unfold invalidate_session
    rw [h]
  · intro s hs
    have h2 := session_get_by_id_invalidate hs
    have h4 := session_get_by_id_invalidate h2
    exact ⟨invalidate_session_fst_of_found hs, h2,
           invalidate_session_fst_of_found h2, h4⟩

/-- One active session with id 1, stored hash of an opaque token. -/
def c3Sess : UserSession :=
  { session_id := 1, user_id := 1,
    refresh_token_hash := hash_refresh_token (.invalid "t0"),
    expires_at := 100 }

/-- A world holding only `c3Sess`. -/
def c3Db : DB :=
  { state := { users := [], sessions := [c3Sess], nextId := 2 },
    commits := [] }

/-- Witness for C3 (amended) at a one-session world. -/
theorem invalidate_session_idempotent_witness :
    (invalidate_session c3Db 1).1 = true :=
  ((invalidate_session_idempotent c3Db 1).2 c3Sess (by decide)).1

/-- C3 counterexample: the claim says the second invalidation of the same
session returns false; in the code it returns true (the lookup is by id, not
by activity, so the row is found and re-invalidated). -/
theorem invalidate_twice_returns_true :
    (invalidate_session c3Db 1).1 = true ∧
    (invalidate_session (invalidate_session c3Db 1).2 1).1 = true ∧
    ¬ ((invalidate_session (invalidate_session c3Db 1).2 1).1 = false) := by
  decide

/-! ### C7: rotation by id, inactive sessions included -/

/-- C7 (amended): `update_refresh_token` replaces the stored hash and expiry
of the row named by the id — whether that row is active or not — and returns
none (no mutation) only when the id does not exist; it never flips the
active flag, so a previously invalidated session, though its hash and expiry
are still overwritten, never again satisfies the active-session lookup that
authentication uses. -/
theorem update_refresh_token_spec (db : DB) (sid : Nat) (hsh : Sha256)
    (e : Int) :
    (session_get_by_id db.state sid = none →
      update_refresh_token db sid hsh e = (none, db)) ∧
    (∀ s, session_get_by_id db.state sid = some s →
      (update_refresh_token db sid hsh e).1
        = some { s with refresh_token_hash := hsh, expires_at := e } ∧
      session_get_by_id (update_refresh_token db sid hsh e).2.state sid
        = some { s with refresh_token_hash := hsh, expires_at := e } ∧
      (s.is_active = false →
        get_active_session (update_refresh_token db sid hsh e).2.state sid = none)) := by
  constructor
  · intro h
    unfold update_refresh_token
    rw [h]
  · intro s hs
    refine ⟨update_refresh_token_fst_of_found hsh e hs,
            session_get_by_id_update hsh e hs, ?_⟩
    intro hinact
    unfold update_refresh_token
    rw [hs]
    dsimp only [DB.commit]
    unfold get_active_session
    refine find?_replace_none (fun (t : UserSession) => t.session_id == sid)
      (fun t => t.session_id == sid && t.is_active)
      { s with refresh_token_hash := hsh, expires_at := e }
      (fun t ht => ?_) ?_ _
    · exact (Bool.and_eq_true .. |>.mp ht).1
    · show (s.session_id == sid && s.is_active) = false
      rw [hinact, Bool.and_false]

/-- Witness for C7 (amended): rotating an existing active session. -/
theorem update_refresh_token_spec_witness :
    (update_refresh_token c3Db 1 (hash_refresh_token (.invalid "t1")) 200).1
      = some { c3Sess with refresh_token_hash := hash_refresh_token (.invalid "t1"),
                           expires_at := 200 } :=
  ((update_refresh_token_spec c3Db 1 (hash_refresh_token (.invalid "t1")) 200).2
    c3Sess (by decide)).1

/-- A valid refresh token naming session 1, for the C7 counterexample. -/
def c7Payload : TokenPayload :=
  { user_id := 1, email := "a@x.com", session_id := 1, exp := 100, iat := 0,
    jti := 0, token_type := "refresh" }

/-- One active session whose stored hash is the hash of `c7Payload`. -/
def c7Sess : UserSession :=
  { session_id := 1, user_id := 1,
    refresh_token_hash := hash_refresh_token (.signed c7Payload),
    expires_at := 100 }

/-- A world holding only `c7Sess`. -/
def c7Db : DB :=
  { state := { users := [], sessions := [c7Sess], nextId := 2 },
    commits := [] }

/-- The same world after a logout with the refresh token of the session itself. -/
def c7AfterLogout : DB := (logout_user 0 c7Db (.signed c7Payload)).2

/-- C7 counterexample: the claim says a session invalidated by logout accepts
no further rotation; in the code the rotation still finds the inactive row
and overwrites its hash and expiry (it returns the updated row, not none). -/
theorem rotate_after_logout_succeeds :
    (update_refresh_token c7AfterLogout 1 (hash_refresh_token (.invalid "new")) 200).1
      = some { c7Sess with refresh_token_hash := hash_refresh_token (.invalid "new"),
                           expires_at := 200, is_active := false } ∧
    session_get_by_id
        (update_refresh_token c7AfterLogout 1 (hash_refresh_token (.invalid "new")) 200).2.state 1
      = some { c7Sess with refresh_token_hash := hash_refresh_token (.invalid "new"),
                           expires_at := 200, is_active := false } := by
  decide

/-! ### C4: logout kills by session id, without a hash check -/

/-- C4: for a cryptographically valid refresh token (decodes under the
service key, type "refresh", not expired), logout invalidates the session
named by the session_id claim of the token; no hypothesis relates the token to
the stored hash of the session, so a stale token superseded by rotation still
invalidates the session it names. -/
theorem logout_invalidates_named_session (now : Int) (db : DB)
    (p : TokenPayload) (htype : p.token_type = "refresh")
    (hexp : ¬ now > p.exp) (s : UserSession)
    (hs : session_get_by_id db.state p.session_id = some s) :
    (logout_user now db (.signed p)).1 = .ok () ∧
    session_get_by_id (logout_user now db (.signed p)).2.state p.session_id
      = some { s with is_active := false } := by
  refine ⟨logout_user_fst now db (.signed p), ?_⟩
  unfold logout_user
  rw [verify_token_ok_of now p "refresh" htype hexp]
  dsimp only
  exact session_get_by_id_invalidate hs

/-- One active session whose stored hash belongs to some other token
(as after a rotation superseded the token below). -/
def c4Sess : UserSession :=
  { session_id := 1, user_id := 1,
    refresh_token_hash := hash_refresh_token (.invalid "other"),
    expires_at := 100 }

/-- A world holding only `c4Sess`. -/
def c4Db : DB :=
  { state := { users := [], sessions := [c4Sess], nextId := 2 },
    commits := [] }

/-- Witness for C4: the stored hash belongs to a different (rotated-in)
token, yet the stale token still kills the session. -/
theorem logout_invalidates_named_session_witness :
    (logout_user 0 c4Db (.signed c7Payload)).1 = .ok () ∧
    session_get_by_id (logout_user 0 c4Db (.signed c7Payload)).2.state 1
      = some { c4Sess with is_active := false } :=
  logout_invalidates_named_session 0 c4Db c7Payload rfl (by decide)
    c4Sess (by decide)

/-! ### C5: logout never errors and is idempotent -/

/-- C5: logout returns normally on every input token (malformed, expired,
wrong-type, wrongly-signed included); calling it twice with the same token
errors on neither call; and after the first call with a valid refresh token
the named session is inactive. -/
theorem logout_never_errors_idempotent (now : Int) (db : DB) (t : Token) :
    (logout_user now db t).1 = .ok () ∧
    (logout_user now (logout_user now db t).2 t).1 = .ok () ∧
    (∀ p, t = .signed p → p.token_type = "refresh" → ¬ now > p.exp →
      ∀ s, session_get_by_id db.state p.session_id = some s →
        session_get_by_id (logout_user now db t).2.state p.session_id
          = some { s with is_active := false }) := by
  refine ⟨logout_user_fst now db t, logout_user_fst now _ t, ?_⟩
  intro p ht htype hexp s hs
  subst ht
  unfold logout_user
  rw [verify_token_ok_of now p "refresh" htype hexp]
  dsimp only
  exact session_get_by_id_invalidate hs

/-- Witness for C5: two logouts with the same valid token; neither errors
and the session is inactive after the first. -/
theorem logout_never_errors_idempotent_witness :
    (logout_user 0 c7Db (.signed c7Payload)).1 = .ok () ∧
    (logout_user 0 (logout_user 0 c7Db (.signed c7Payload)).2 (.signed c7Payload)).1 = .ok () ∧
    session_get_by_id (logout_user 0 c7Db (.signed c7Payload)).2.state 1
      = some { c7Sess with is_active := false } :=
  ⟨(logout_never_errors_idempotent 0 c7Db (.signed c7Payload)).1,
   (logout_never_errors_idempotent 0 c7Db (.signed c7Payload)).2.1,
   (logout_never_errors_idempotent 0 c7Db (.signed c7Payload)).2.2 c7Payload rfl rfl
     (by decide) c7Sess (by decide)⟩

/-! ### C8: duplicate registration -/

/-- C8 (amended): registration is rejected with the duplicate-email error
before any account is persisted when an account with the *exactly equal*
email string is present (the comparison is case-sensitive: the source
filters on `User.email == email`, and the request validator lowercases only
the domain part); and every failure `create_user` can surface is that same
duplicate-email error, so a storage-layer duplicate-key conflict is
translated rather than exposed. -/
theorem register_duplicate_rejected (db : DB) (now : Int) (u : UserCreate) :
    (email_exists db.state u.email = true →
      create_user db now u = (.error "User with this email already exists", db)) ∧
    (∀ msg, (create_user db now u).1 = .error msg →
      msg = "User with this email already exists") := by
  constructor
  · intro h
    unfold create_user
    simp [h]
  · intro msg h
    unfold create_user at h
    by_cases hex : email_exists db.state u.email = true
    · rw [if_pos hex] at h
      simp only [Except.error.injEq] at h
      exact h.symm
    · rw [if_neg hex] at h
      unfold user_repo_create_user at h
      by_cases hany : (db.state.users.any (fun v => v.email == u.email)) = true
      · rw [if_pos hany] at h
        simp only [Except.error.injEq] at h
        exact h.symm
      · rw [if_neg hany] at h
        simp at h

/-- Duplicate-registration world: one account, exact email "a@x.com". -/
def c8User : User :=
  { user_id := 1, email := "a@x.com", password_hash := hash_password "Abcdef1!" }

def c8Db : DB :=
  { state := { users := [c8User], sessions := [], nextId := 2 },
    commits := [] }

/-- Witness for C8 (amended): registering the exactly-equal email is
rejected with the duplicate error and nothing is persisted. -/
theorem register_duplicate_rejected_witness :
    create_user c8Db 0 { email := "a@x.com", password := "Zyxwvu9?" }
      = (.error "User with this email already exists", c8Db) :=
  (register_duplicate_rejected c8Db 0
    { email := "a@x.com", password := "Zyxwvu9?" }).1 (by decide)

/-- Same world but the stored email has an upper-case local part. -/
def c8DbUpper : DB :=
  { state := { users := [{ c8User with email := "A@x.com" }], sessions := [],
               nextId := 2 },
    commits := [] }

/-- C8 counterexample: the claim says the duplicate check is
case-insensitive; with "A@x.com" stored, registering "a@x.com" is accepted
and a second account is persisted (the filter and the unique index both
compare exact strings). -/
theorem register_case_variant_accepted :
    (create_user c8DbUpper 0 { email := "a@x.com", password := "Zyxwvu9?" }).1
      = .ok { user_id := 2, email := "a@x.com",
              password_hash := hash_password "Zyxwvu9?" } ∧
    (create_user c8DbUpper 0 { email := "a@x.com", password := "Zyxwvu9?" }).2.state.users.length
      = 2 := by
  decide

/-! ### C9: login commits an intermediate placeholder state -/

/-- One active account and an empty session table, about to log in. -/
def c9User : User :=
  { user_id := 1, email := "a@x.com", password_hash := hash_password "Abcdef1!" }

def c9Db : DB :=
  { state := { users := [c9User], sessions := [], nextId := 10 },
    commits := [] }

/-- The login run at the failing input. -/
def c9Run : Except String TokenResponse × DB :=
  authenticate_user defaultConfig 0 c9Db { email := "a@x.com", password := "Abcdef1!" }

/-- True when a successful run left a committed snapshot in which some
stored session hash differs from the hash of the refresh token the caller
received. -/
def committedPlaceholder (r : Except String TokenResponse × DB) : Bool :=
  match r with
  | (.ok resp, db') =>
    db'.commits.any (fun w => w.sessions.any
      (fun s => !(s.refresh_token_hash == hash_refresh_token resp.refresh_token)))
  | (.error _, _) => false

/-- C9: the login at `c9Db` succeeds after three separate commits, and the
first committed snapshot holds the new session with the placeholder hash
(the hash of the refresh token minted against the throwaway session id),
not the hash of the refresh token finally returned — so the create-then-
rotate sequence is not a single atomic transaction. -/
theorem login_commits_placeholder_state :
    committedPlaceholder c9Run = true ∧ c9Run.2.commits.length = 3 := by
  decide

/-! ### Inversion lemmas for `verify_token` and `refresh_tokens` -/

/-- Inversion of a successful verification of a signed token. -/
theorem verify_token_signed_ok_inv {now : Int} {p q : TokenPayload}
    {ty : String} (h : verify_token now (.signed p) ty = .ok q) :
    q = p ∧ p.token_type = ty ∧ ¬ now > p.exp := by
  unfold verify_token at h
  split at h
  · exact absurd h (by simp)
  · rename_i payload heq
    simp only [jwtDecode, Except.ok.injEq] at heq
    subst heq
    split at h
    · exact absurd h (by simp)
    · rename_i h1
      split at h
      · exact absurd h (by simp)
      · rename_i h2
        simp only [Except.ok.injEq] at h
        exact ⟨h.symm, not_not.mp h1, h2⟩

/-- A session returned by the active lookup is active. -/
theorem get_active_session_is_active {w : World} {sid : Nat}
    {s : UserSession} (h : get_active_session w sid = some s) :
    s.is_active = true := by
  unfold get_active_session at h
  have hp := find?_pred (fun (t : UserSession) => t.session_id == sid && t.is_active) h
  exact (Bool.and_eq_true .. |>.mp hp).2

/-- A session returned by the active lookup carries the queried id. -/
theorem get_active_session_sid {w : World} {sid : Nat} {s : UserSession}
    (h : get_active_session w sid = some s) : s.session_id = sid := by
  unfold get_active_session at h
  have hp := find?_pred (fun (t : UserSession) => t.session_id == sid && t.is_active) h
  have h1 := (Bool.and_eq_true .. |>.mp hp).1
  simpa using h1

/-- A session returned by the active lookup is a stored row. -/
theorem get_active_session_mem {w : World} {sid : Nat} {s : UserSession}
    (h : get_active_session w sid = some s) : s ∈ w.sessions := by
  unfold get_active_session at h
  exact find?_mem _ h

/-- Under unique ids, the row found by the active lookup is also the row the
plain id lookup returns. -/
theorem session_get_by_id_of_active {w : World} {sid : Nat} {s : UserSession}
    (hwf : w.wf) (h : get_active_session w sid = some s) :
    session_get_by_id w sid = some s := by
  unfold get_active_session at h
  unfold session_get_by_id
  exact find?_id_of_find?_active hwf.1 h

/-- After rotating a session found active, the active lookup returns the
same row with the new hash and expiry. -/
theorem get_active_session_update_of_found {db : DB} {sid : Nat}
    {s : UserSession} (hsh : Sha256) (e : Int) (hwf : db.state.wf)
    (hga : get_active_session db.state sid = some s) :
    get_active_session (update_refresh_token db sid hsh e).2.state sid
      = some { s with refresh_token_hash := hsh, expires_at := e } := by
  have hid := session_get_by_id_of_active hwf hga
  have hact := get_active_session_is_active hga
  have hsid := get_active_session_sid hga
  unfold update_refresh_token
  rw [hid]
  dsimp only [DB.commit]
  unfold get_active_session
  unfold session_get_by_id at hid
  refine find?_replace_some (fun (t : UserSession) => t.session_id == sid)
    (fun t => t.session_id == sid && t.is_active)
    { s with refresh_token_hash := hsh, expires_at := e }
    (fun t ht => (Bool.and_eq_true .. |>.mp ht).1) ?_ hid
  show (s.session_id == sid && s.is_active) = true
  rw [hact, Bool.and_true]
  simp [hsid]

/-- Full inversion of a successful `refresh_tokens` call on a signed token:
every guard passed, and the response and updated database are exactly the
minted pair and the rotated store. -/
theorem refresh_tokens_ok_shape {cfg : Config} {now : Int} {db : DB}
    {p : TokenPayload} {resp : TokenResponse} {db' : DB}
    (h : refresh_tokens cfg now db (.signed p) = (.ok resp, db')) :
    p.token_type = "refresh" ∧ ¬ now > p.exp ∧
    ∃ session user,
      get_active_session db.state p.session_id = some session ∧
      session.refresh_token_hash = hash_refresh_token (.signed p) ∧
      ¬ now > session.expires_at ∧
      user_get_by_id db.state session.user_id = some user ∧
      user.is_active = true ∧
      resp = { access_token := create_access_token cfg now user.user_id
                 user.email session.session_id db.state.nextId,
               refresh_token := create_refresh_token cfg now user.user_id
                 user.email session.session_id (db.state.nextId + 1),
               expires_in := 60 * cfg.access_token_expire_minutes } ∧
      db' = (update_refresh_token
              { db with state := { db.state with nextId := db.state.nextId + 1 + 1 } }
              session.session_id
              (hash_refresh_token (create_refresh_token cfg now user.user_id
                 user.email session.session_id (db.state.nextId + 1)))
              (now + 86400 * cfg.refresh_token_expire_days)).2 := by
  unfold refresh_tokens at h
  split at h
  · exact absurd h (by simp)
  · rename_i payload hv
    obtain ⟨heqp, hty, hexp⟩ := verify_token_signed_ok_inv hv
    subst heqp
    refine ⟨hty, hexp, ?_⟩
    split at h
    · exact absurd h (by simp)
    · rename_i session hs
      split at h
      · exact absurd h (by simp)
      · rename_i hhash
        split at h
        · exact absurd h (by simp)
        · rename_i hsexp
          split at h
          · exact absurd h (by simp)
          · rename_i user hu
            split at h
            · exact absurd h (by simp)
            · rename_i hact
              refine ⟨session, user, hs, not_not.mp hhash, hsexp, hu, ?_, ?_, ?_⟩
              · simpa using hact
              · simp only [freshId, Prod.mk.injEq, Except.ok.injEq] at h
                exact h.1.symm
              · simp only [freshId, Prod.mk.injEq, Except.ok.injEq] at h
                exact h.2.symm

/-! ### C10: refresh slides the session expiry forward -/

/-- C10: whenever a refresh succeeds, the session named by the token ends up
with its stored expiry equal to the current time plus the full configured
refresh TTL (the old expiry is discarded), still active; so with a positive
TTL the session lifetime is pushed strictly into the future on every
refresh, regardless of when the session was created. -/
theorem refresh_slides_session_expiry (cfg : Config) (now : Int) (db : DB)
    (p : TokenPayload) (resp : TokenResponse) (db' : DB)
    (hwf : db.state.wf)
    (h : refresh_tokens cfg now db (.signed p) = (.ok resp, db')) :
    ∃ s', get_active_session db'.state p.session_id = some s' ∧
      s'.expires_at = now + 86400 * cfg.refresh_token_expire_days ∧
      s'.is_active = true ∧
      (0 < cfg.refresh_token_expire_days → now < s'.expires_at) := by
  obtain ⟨hty, hexp, session, user, hga, hhash, hsexp, hu, hact, hresp, hdb⟩ :=
    refresh_tokens_ok_shape h
  have hsid := get_active_session_sid hga
  have hsact := get_active_session_is_active hga
  subst hdb
  rw [← hsid]
  have hga2 : get_active_session
      ({ db with state := { db.state with nextId := db.state.nextId + 1 + 1 } } : DB).state
      session.session_id = some session := by
    rw [hsid]; exact hga
  have hwf2 : ({ db with state := { db.state with nextId := db.state.nextId + 1 + 1 } } : DB).state.wf :=
    hwf
  refine ⟨_, get_active_session_update_of_found _ _ hwf2 hga2, rfl, hsact, ?_⟩
  intro hd
  show now < now + 86400 * cfg.refresh_token_expire_days
  omega

/-! ### Preservation lemmas and a success-introduction rule for refresh -/

/-- Rotation leaves the users table untouched. -/
theorem update_refresh_token_users (db : DB) (sid : Nat) (hsh : Sha256)
    (e : Int) :
    (update_refresh_token db sid hsh e).2.state.users = db.state.users := by
  unfold update_refresh_token
  cases hid : session_get_by_id db.state sid with
  | none => rfl
  | some s => rfl

/-- Rotation leaves the fresh-UUID counter untouched. -/
theorem update_refresh_token_nextId (db : DB) (sid : Nat) (hsh : Sha256)
    (e : Int) :
    (update_refresh_token db sid hsh e).2.state.nextId = db.state.nextId := by
  unfold update_refresh_token
  cases hid : session_get_by_id db.state sid with
  | none => rfl
  | some s => rfl

/-- Rotation preserves primary-key uniqueness. -/
theorem wf_update_refresh_token {db : DB} {sid : Nat} (hsh : Sha256) (e : Int)
    (hwf : db.state.wf) :
    (update_refresh_token db sid hsh e).2.state.wf := by
  unfold update_refresh_token
  cases hid : session_get_by_id db.state sid with
  | none => exact hwf
  | some s =>
    dsimp only [DB.commit]
    have hsid : (s.session_id == sid) = true := session_get_by_id_some_id hid
    have hgid : ∀ t : UserSession,
        ((if t.session_id == sid
            then { s with refresh_token_hash := hsh, expires_at := e }
            else t).session_id) = t.session_id := by
      intro t
      by_cases hb : (t.session_id == sid) = true
      · rw [if_pos hb]
        show s.session_id = t.session_id
        have h1 : s.session_id = sid := by simpa using hsid
        have h2 : t.session_id = sid := by simpa using hb
        omega
      · rw [if_neg hb]
    constructor
    · rw [List.pairwise_map]
      refine hwf.1.imp ?_
      intro a b hab
      rw [hgid a, hgid b]
      exact hab
    · exact hwf.2

/-- Rotating in the hash of a token whose `jti` precedes the counter keeps
every stored hash fresh. -/
theorem hashesFresh_update {db : DB} {sid : Nat} {tok : Token} {e : Int}
    (hfresh : db.state.hashesFresh)
    (hjti : tok.jtiLt db.state.nextId = true) :
    (update_refresh_token db sid (hash_refresh_token tok) e).2.state.hashesFresh := by
  unfold update_refresh_token
  cases hid : session_get_by_id db.state sid with
  | none => exact hfresh
  | some s =>
    dsimp only [DB.commit]
    intro t ht
    rw [List.mem_map] at ht
    obtain ⟨u, hu, rfl⟩ := ht
    by_cases hb : (u.session_id == sid) = true
    · rw [if_pos hb]
      exact hjti
    · rw [if_neg hb]
      exact hfresh u hu

/-- The hash of a freshly minted refresh token differs from the hash of any
token whose `jti` was drawn earlier. -/
theorem new_token_hash_ne {cfg : Config} {now : Int} {n : Nat}
    {p : TokenPayload} (hjti : p.jti < n) (uid : Nat) (em : String)
    (sid : Nat) :
    hash_refresh_token (create_refresh_token cfg now uid em sid n)
      ≠ hash_refresh_token (.signed p) := by
  intro hcon
  simp only [hash_refresh_token, Sha256.mk.injEq, create_refresh_token,
    Token.signed.injEq] at hcon
  have hj : n = p.jti := congrArg TokenPayload.jti hcon
  omega

/-- Forward evaluation of a successful refresh: when every guard holds, the
call returns exactly the minted pair and the rotated store. -/
theorem refresh_tokens_ok_intro (cfg : Config) (now : Int) (db : DB)
    (p : TokenPayload) (session : UserSession) (user : User)
    (hty : p.token_type = "refresh") (hexp : ¬ now > p.exp)
    (hga : get_active_session db.state p.session_id = some session)
    (hhash : session.refresh_token_hash = hash_refresh_token (.signed p))
    (hsexp : ¬ now > session.expires_at)
    (hu : user_get_by_id db.state session.user_id = some user)
    (hact : user.is_active = true) :
    refresh_tokens cfg now db (.signed p)
      = (.ok { access_token := create_access_token cfg now user.user_id
                 user.email session.session_id db.state.nextId,
               refresh_token := create_refresh_token cfg now user.user_id
                 user.email session.session_id (db.state.nextId + 1),
               expires_in := 60 * cfg.access_token_expire_minutes },
         (update_refresh_token
           { db with state := { db.state with nextId := db.state.nextId + 1 + 1 } }
           session.session_id
           (hash_refresh_token (create_refresh_token cfg now user.user_id
              user.email session.session_id (db.state.nextId + 1)))
           (now + 86400 * cfg.refresh_token_expire_days)).2) := by
  have hv := verify_token_ok_of now p "refresh" hty hexp
  have hb : ¬((!user.is_active) = true) := by simp [hact]
  simp only [refresh_tokens, hv, hga]
  rw [if_neg (not_not_intro hhash), if_neg hsexp]
  simp only [hu]
  rw [if_neg hb]
  simp only [freshId]

/-- After a successful refresh, presenting the superseded refresh token is
rejected with the hash-mismatch error. -/
theorem refresh_rejects_old {cfg : Config} {now : Int} {db : DB}
    {p : TokenPayload} {resp : TokenResponse} {db' : DB}
    (hwf : db.state.wf) (hfresh : db.state.hashesFresh)
    (h : refresh_tokens cfg now db (.signed p) = (.ok resp, db')) :
    (refresh_tokens cfg now db' (.signed p)).1 = .error "Invalid refresh token" := by
  obtain ⟨hty, hexp, session, user, hga, hhash, hsexp, hu, hact, hresp, hdb⟩ :=
    refresh_tokens_ok_shape h
  have hsid := get_active_session_sid hga
  have hjti : p.jti < db.state.nextId := by
    have hfr := hfresh session (get_active_session_mem hga)
    rw [hhash] at hfr
    simpa [hash_refresh_token, Token.jtiLt] using hfr
  have hne : hash_refresh_token (create_refresh_token cfg now user.user_id
        user.email session.session_id (db.state.nextId + 1))
      ≠ hash_refresh_token (.signed p) :=
    new_token_hash_ne (by omega) user.user_id user.email session.session_id
  subst hdb
  have hga2 : get_active_session
      ({ db with state := { db.state with nextId := db.state.nextId + 1 + 1 } } : DB).state
      session.session_id = some session := by
    rw [hsid]; exact hga
  have hwf2 : ({ db with state := { db.state with nextId := db.state.nextId + 1 + 1 } } : DB).state.wf :=
    hwf
  have hga' := get_active_session_update_of_found
    (hash_refresh_token (create_refresh_token cfg now user.user_id
       user.email session.session_id (db.state.nextId + 1)))
    (now + 86400 * cfg.refresh_token_expire_days) hwf2 hga2
  have hga3 : get_active_session
      (update_refresh_token
        { db with state := { db.state with nextId := db.state.nextId + 1 + 1 } }
        session.session_id
        (hash_refresh_token (create_refresh_token cfg now user.user_id
           user.email session.session_id (db.state.nextId + 1)))
        (now + 86400 * cfg.refresh_token_expire_days)).2.state
      p.session_id
      = some { session with
          refresh_token_hash := hash_refresh_token (create_refresh_token cfg
            now user.user_id user.email session.session_id (db.state.nextId + 1)),
          expires_at := now + 86400 * cfg.refresh_token_expire_days } := by
    rw [← hsid]
    exact hga'
  have hv := verify_token_ok_of now p "refresh" hty hexp
  simp only [refresh_tokens, hv, hga3]
  rw [if_pos hne]

/-- After a successful refresh, presenting the newly issued refresh token
succeeds. -/
theorem refresh_accepts_new {cfg : Config} {now : Int} {db : DB}
    {p : TokenPayload} {resp : TokenResponse} {db' : DB}
    (hwf : db.state.wf) (hd : 0 ≤ cfg.refresh_token_expire_days)
    (h : refresh_tokens cfg now db (.signed p) = (.ok resp, db')) :
    ∃ resp' db'', refresh_tokens cfg now db' resp.refresh_token = (.ok resp', db'') := by
  obtain ⟨hty, hexp, session, user, hga, hhash, hsexp, hu, hact, hresp, hdb⟩ :=
    refresh_tokens_ok_shape h
  have hsid := get_active_session_sid hga
  subst hresp
  subst hdb
  have hga2 : get_active_session
      ({ db with state := { db.state with nextId := db.state.nextId + 1 + 1 } } : DB).state
      session.session_id = some session := by
    rw [hsid]; exact hga
  have hwf2 : ({ db with state := { db.state with nextId := db.state.nextId + 1 + 1 } } : DB).state.wf :=
    hwf
  have hga' := get_active_session_update_of_found
    (hash_refresh_token (create_refresh_token cfg now user.user_id
       user.email session.session_id (db.state.nextId + 1)))
    (now + 86400 * cfg.refresh_token_expire_days) hwf2 hga2
  have hu' : user_get_by_id
      (update_refresh_token
        { db with state := { db.state with nextId := db.state.nextId + 1 + 1 } }
        session.session_id
        (hash_refresh_token (create_refresh_token cfg now user.user_id
           user.email session.session_id (db.state.nextId + 1)))
        (now + 86400 * cfg.refresh_token_expire_days)).2.state
      session.user_id = some user := by
    unfold user_get_by_id
    rw [update_refresh_token_users]
    exact hu
  refine ⟨_, _, refresh_tokens_ok_intro cfg now _
    { user_id := user.user_id, email := user.email,
      session_id := session.session_id,
      exp := now + 86400 * cfg.refresh_token_expire_days, iat := now,
      jti := db.state.nextId + 1, token_type := "refresh" }
    { session with
      refresh_token_hash :=
        hash_refresh_token (create_refresh_token cfg now user.user_id
          user.email session.session_id (db.state.nextId + 1)),
      expires_at := now + 86400 * cfg.refresh_token_expire_days }
    user rfl ?_ ?_ rfl ?_ ?_ hact⟩
  · show ¬ now > now + 86400 * cfg.refresh_token_expire_days
    omega
  · exact hga'
  · show ¬ now > now + 86400 * cfg.refresh_token_expire_days
    omega
  · exact hu'

/-! ### C1: rotation invalidates the old token, the new one works once -/

/-- C1: when a refresh succeeds (in a store with unique primary keys and
freshly drawn token ids, and a nonnegative configured refresh TTL), the
superseded refresh token is rejected by the next refresh call with the
hash-mismatch error; the stored session hash is now exactly the hash of
the newly issued refresh token and no longer matches the old one; and the
newly issued refresh token is accepted by exactly one subsequent refresh —
it succeeds once and is rejected after that success. -/
theorem refresh_rotation (cfg : Config) (now : Int) (db : DB)
    (p : TokenPayload) (resp : TokenResponse) (db' : DB)
    (hwf : db.state.wf) (hfresh : db.state.hashesFresh)
    (hd : 0 ≤ cfg.refresh_token_expire_days)
    (h : refresh_tokens cfg now db (.signed p) = (.ok resp, db')) :
    (refresh_tokens cfg now db' (.signed p)).1 = .error "Invalid refresh token" ∧
    (∀ s', get_active_session db'.state p.session_id = some s' →
        s'.refresh_token_hash = hash_refresh_token resp.refresh_token ∧
        s'.refresh_token_hash ≠ hash_refresh_token (.signed p)) ∧
    (∃ resp' db'', refresh_tokens cfg now db' resp.refresh_token = (.ok resp', db'') ∧
        (refresh_tokens cfg now db'' resp.refresh_token).1 = .error "Invalid refresh token") := by
  obtain ⟨hty, hexp, session, user, hga, hhash, hsexp, hu, hact, hresp, hdb⟩ :=
    refresh_tokens_ok_shape h
  have hsid := get_active_session_sid hga
  have hjti : p.jti < db.state.nextId := by
    have hfr := hfresh session (get_active_session_mem hga)
    rw [hhash] at hfr
    simpa [hash_refresh_token, Token.jtiLt] using hfr
  refine ⟨refresh_rejects_old hwf hfresh h, ?_, ?_⟩
  · intro s' hga'
    have hga2 : get_active_session
        ({ db with state := { db.state with nextId := db.state.nextId + 1 + 1 } } : DB).state
        session.session_id = some session := by
      rw [hsid]; exact hga
    have hwf2 : ({ db with state := { db.state with nextId := db.state.nextId + 1 + 1 } } : DB).state.wf :=
      hwf
    have hga'' := get_active_session_update_of_found
      (hash_refresh_token (create_refresh_token cfg now user.user_id
         user.email session.session_id (db.state.nextId + 1)))
      (now + 86400 * cfg.refresh_token_expire_days) hwf2 hga2
    have hga3 : get_active_session
        (update_refresh_token
          { db with state := { db.state with nextId := db.state.nextId + 1 + 1 } }
          session.session_id
          (hash_refresh_token (create_refresh_token cfg now user.user_id
             user.email session.session_id (db.state.nextId + 1)))
          (now + 86400 * cfg.refresh_token_expire_days)).2.state
        p.session_id
        = some { session with
            refresh_token_hash := hash_refresh_token (create_refresh_token cfg
              now user.user_id user.email session.session_id (db.state.nextId + 1)),
            expires_at := now + 86400 * cfg.refresh_token_expire_days } := by
      rw [← hsid]
      exact hga''
    have hs' : s' = { session with
        refresh_token_hash := hash_refresh_token (create_refresh_token cfg
          now user.user_id user.email session.session_id (db.state.nextId + 1)),
        expires_at := now + 86400 * cfg.refresh_token_expire_days } := by
      rw [hdb, hga3] at hga'
      exact (Option.some.injEq .. |>.mp hga').symm
    subst hs'
    constructor
    · rw [hresp]
    · show hash_refresh_token (create_refresh_token cfg now user.user_id
          user.email session.session_id (db.state.nextId + 1))
        ≠ hash_refresh_token (.signed p)
      exact new_token_hash_ne (by omega) user.user_id user.email session.session_id
  · obtain ⟨resp', db'', h2⟩ := refresh_accepts_new hwf hd h
    have hwf' : db'.state.wf := by
      rw [hdb]
      exact wf_update_refresh_token _ _ hwf
    have hfresh' : db'.state.hashesFresh := by
      rw [hdb]
      refine hashesFresh_update ?_ ?_
      · intro t ht
        refine Token.jtiLt_mono (hfresh t ht) ?_
        show db.state.nextId ≤ db.state.nextId + 1 + 1
        omega
      · show decide (db.state.nextId + 1 < db.state.nextId + 1 + 1) = true
        simp only [decide_eq_true_eq]
        omega
    have h2' : refresh_tokens cfg now db'
        (.signed { user_id := user.user_id, email := user.email,
                   session_id := session.session_id,
                   exp := now + 86400 * cfg.refresh_token_expire_days,
                   iat := now, jti := db.state.nextId + 1,
                   token_type := "refresh" }) = (.ok resp', db'') := by
      rw [← h2, hresp]
      rfl
    refine ⟨resp', db'', h2, ?_⟩
    have hrej := refresh_rejects_old hwf' hfresh' h2'
    rw [hresp]
    exact hrej

/-! ### Concrete refresh run used by the C1 and C10 witnesses -/

/-- A valid refresh token naming session 2, minted at login. -/
def c10Payload : TokenPayload :=
  { user_id := 1, email := "a@x.com", session_id := 2, exp := 604800, iat := 0,
    jti := 0, token_type := "refresh" }

def c10User : User :=
  { user_id := 1, email := "a@x.com", password_hash := hash_password "Abcdef1!" }

def c10Sess : UserSession :=
  { session_id := 2, user_id := 1,
    refresh_token_hash := hash_refresh_token (.signed c10Payload),
    expires_at := 604800 }

def c10Db : DB :=
  { state := { users := [c10User], sessions := [c10Sess], nextId := 5 },
    commits := [] }

/-- The token pair the refresh at time 0 returns. -/
def c10Resp : TokenResponse :=
  { access_token := create_access_token defaultConfig 0 1 "a@x.com" 2 5,
    refresh_token := create_refresh_token defaultConfig 0 1 "a@x.com" 2 6,
    expires_in := 1800 }

/-- The refresh run at the concrete world. -/
def c10Run : Except String TokenResponse × DB :=
  refresh_tokens defaultConfig 0 c10Db (.signed c10Payload)

/-- Witness for C10: after the successful refresh the stored session
expiry is exactly `now + full refresh TTL`. -/
theorem refresh_slides_session_expiry_witness :
    ∃ s', get_active_session c10Run.2.state 2 = some s' ∧
      s'.expires_at = 0 + 86400 * defaultConfig.refresh_token_expire_days ∧
      s'.is_active = true ∧
      (0 < defaultConfig.refresh_token_expire_days → 0 < s'.expires_at) :=
  refresh_slides_session_expiry defaultConfig 0 c10Db c10Payload c10Resp
    c10Run.2 (by decide) (by decide)

/-- Witness for C1: at the concrete world, the old token is rejected after
the refresh, the stored hash matches only the new token, and the new token
succeeds exactly once. -/
theorem refresh_rotation_witness :
    (refresh_tokens defaultConfig 0 c10Run.2 (.signed c10Payload)).1
      = .error "Invalid refresh token" ∧
    (∀ s', get_active_session c10Run.2.state 2 = some s' →
        s'.refresh_token_hash = hash_refresh_token c10Resp.refresh_token ∧
        s'.refresh_token_hash ≠ hash_refresh_token (.signed c10Payload)) ∧
    (∃ resp' db'', refresh_tokens defaultConfig 0 c10Run.2 c10Resp.refresh_token
        = (.ok resp', db'') ∧
        (refresh_tokens defaultConfig 0 db'' c10Resp.refresh_token).1
          = .error "Invalid refresh token") :=
  refresh_rotation defaultConfig 0 c10Db c10Payload c10Resp c10Run.2
    (by decide) (by decide) (by decide) (by decide)

end AuraAuth
